import Mathlib

/-!
Verification of the conversion-resolution engine of the ABC-fitness lead
conversion pipeline (`src/main.py`).

The embedding models Python dict rows as structures whose fields are the keys
the code reads, with `Option String` for possibly-missing string values.
Normalized timestamps are modelled as `Nat` (the source compares normalized
fixed-width ISO strings lexicographically, which is order-isomorphic to
comparing the instants themselves).  The Temporal Normalizer
`parse_custom_datetime` is an external collaborator (spec section 2); it is
modelled as a parameter `P : Option String -> Option Nat` constrained by the
`ParseOK` contract, and instantiated with the executable `testParse` in
concrete evaluations.
-/

/-- Truthiness of an optional string, as Python `not x`:
`None` and the empty string are falsy. -/
def falsyS : Option String → Bool
  | none => true
  | some s => s == ""

/-- The far-future sentinel substituted for a missing purchase date
(`'9999-12-31T00:00:00Z'` in `process_credit_packs` / `process_memberships`). -/
def sentinelStr : String := "9999-12-31T00:00:00Z"

/-- Numeric timestamp value of the sentinel date under the normalizer model. -/
def sentN : Nat := 99991231000000

/-- Contract of the external Temporal Normalizer (`parse_custom_datetime`):
`None` and the empty string fail to parse, and both spellings of the sentinel
date used by the source parse to the sentinel instant. -/
structure ParseOK (P : Option String → Option Nat) : Prop where
  none_eq : P none = none
  empty_eq : P (some "") = none
  sent_eq : P (some "9999-12-31T00:00:00Z") = some sentN
  sent2_eq : P (some "9999-12-31") = some sentN

/-- Executable instantiation of the normalizer used for concrete evaluations:
a finite table of normalized timestamp strings. -/
def testParse : Option String → Option Nat
  | none => none
  | some s =>
    if s == "9999-12-31T00:00:00Z" then some 99991231000000
    else if s == "9999-12-31" then some 99991231000000
    else if s == "2024-01-01T00:00:00" then some 20240101000000
    else if s == "2024-01-05T00:00:00" then some 20240105000000
    else if s == "2024-01-10T00:00:00" then some 20240110000000
    else if s == "2024-02-01T00:00:00" then some 20240201000000
    else if s == "2024-03-01T00:00:00" then some 20240301000000
    else none

theorem testParse_ok : ParseOK testParse := by
  refine ⟨rfl, rfl, rfl, rfl⟩

/-- Python comparison `new_date and current_date and new_date < current_date`:
both parse results must be truthy (non-`None`) and strictly ordered. -/
def ltOpt : Option Nat → Option Nat → Bool
  | some a, some b => a < b
  | _, _ => false

/-- A raw purchase row, as read from either purchase stream.  Field
correspondence: `item_id` stands for `credit_pack_id` / `membership_id`,
`purchased_at` for `credit_pack_purchased_at` / `membership_purchased_at`, and
`details` for the pre-parsed `*_purchase_details` JSON object (`none` when the
value is not a JSON object, in which case Python's `.get` on a non-dict guard
yields `None` for both name and source). -/
structure PurchaseRow where
  user_id : Option String
  item_id : Option String
  purchased_at : Option String
  details : Option (Option String × Option String)
deriving DecidableEq, Repr

/-- A purchase row as stored in the earliest-purchase mapping: the source
mutates the row, extracting `name`/`source` from the details object and
substituting the sentinel date for a falsy `purchased_at`
(`row.get(...) or '9999-12-31T00:00:00Z'`), so the stored date is always a
non-empty string. -/
structure StoredPurchase where
  user_id : Option String
  item_id : Option String
  purchased_at : String
  name : Option String
  source : Option String
deriving DecidableEq, Repr

/-- The row mutation performed by `process_credit_packs` /
`process_memberships` before storing: extract name and source from the
pre-parsed details and default a falsy purchase date to the sentinel. -/
def enrich (row : PurchaseRow) : StoredPurchase :=
  { user_id := row.user_id
    item_id := row.item_id
    purchased_at :=
      match row.purchased_at with
      | none => sentinelStr
      | some s => if s == "" then sentinelStr else s
    name := match row.details with
      | some d => d.1
      | none => none
    source := match row.details with
      | some d => d.2
      | none => none }

/-- One iteration of the earliest-purchase fold (the loop body shared,
textually duplicated, by `process_credit_packs` and `process_memberships`):
skip rows with falsy `user_id` or falsy item id; otherwise store the enriched
row when the user is unseen, or when both the new and the currently stored
dates parse and the new one is strictly earlier. -/
def processStep (P : Option String → Option Nat)
    (result : String → Option StoredPurchase) (row : PurchaseRow) :
    String → Option StoredPurchase :=
  if falsyS row.user_id || falsyS row.item_id then result
  else
    let uid := row.user_id.getD ""
    let stored := enrich row
    let current_date :=
      match result uid with
      | some r => P (some r.purchased_at)
      | none => P (some "9999-12-31")
    let new_date := P (some stored.purchased_at)
    if (result uid).isNone || ltOpt new_date current_date then
      fun u => if u == uid then some stored else result u
    else result

/-- `process_credit_packs` from `src/main.py`: fold the credit-purchase stream
into a mapping from `user_id` to the earliest stored purchase. -/
def process_credit_packs (P : Option String → Option Nat)
    (data : List PurchaseRow) : String → Option StoredPurchase :=
  data.foldl (processStep P) (fun _ => none)

/-- `process_memberships` from `src/main.py`: identical logic to
`process_credit_packs` over the membership stream's field names. -/
def process_memberships (P : Option String → Option Nat)
    (data : List PurchaseRow) : String → Option StoredPurchase :=
  data.foldl (processStep P) (fun _ => none)

example :
    process_credit_packs testParse
      [{ user_id := some "u1", item_id := some "c1",
         purchased_at := some "2024-01-10T00:00:00", details := none },
       { user_id := some "u1", item_id := some "c2",
         purchased_at := some "2024-01-05T00:00:00", details := none }] "u1"
    = some (enrich
       { user_id := some "u1", item_id := some "c2",
         purchased_at := some "2024-01-05T00:00:00", details := none }) := by
  decide

/-- A roster row from `dim_user`. -/
structure User where
  user_id : Option String
  branch_id : Option String
  created_at : Option String
deriving DecidableEq, Repr

/-- The composed conversion event built per user by
`create_client_conversion_events` (17 fields, exactly the dict keys the
source initializes). -/
structure ConversionEvent where
  user_id : String
  branch_id : Option String
  local_user_created_at : Option String
  lead_status : String
  client_conversion_event_type : Option String
  client_conversion_event_id : Option String
  client_conversion_event_local_created_at : Option String
  client_conversion_event_name : Option String
  client_conversion_event_source : Option String
  first_user_membership_id : Option String
  first_local_membership_purchased_at : Option String
  first_membership_name : Option String
  first_membership_source : Option String
  first_credit_pack_id : Option String
  first_local_credit_pack_purchased_at : Option String
  first_credit_pack_name : Option String
  first_credit_pack_source : Option String
deriving DecidableEq, Repr

/-- The default event a user starts from: `lead_status = 'LEAD'`, every
conversion and first-purchase field `None`. -/
def baseEvent (user : User) : ConversionEvent :=
  { user_id := user.user_id.getD ""
    branch_id := user.branch_id
    local_user_created_at := user.created_at
    lead_status := "LEAD"
    client_conversion_event_type := none
    client_conversion_event_id := none
    client_conversion_event_local_created_at := none
    client_conversion_event_name := none
    client_conversion_event_source := none
    first_user_membership_id := none
    first_local_membership_purchased_at := none
    first_membership_name := none
    first_membership_source := none
    first_credit_pack_id := none
    first_local_credit_pack_purchased_at := none
    first_credit_pack_name := none
    first_credit_pack_source := none }

/-- Copy the looked-up earliest credit purchase (when present) into the
`first_credit_pack_*` fields. -/
def addCredit (e : ConversionEvent) : Option StoredPurchase → ConversionEvent
  | some credit =>
    { e with
      first_credit_pack_id := credit.item_id
      first_local_credit_pack_purchased_at := some credit.purchased_at
      first_credit_pack_name := credit.name
      first_credit_pack_source := credit.source }
  | none => e

/-- Copy the looked-up earliest membership purchase (when present) into the
`first_*membership*` fields. -/
def addMembership (e : ConversionEvent) : Option StoredPurchase → ConversionEvent
  | some membership =>
    { e with
      first_user_membership_id := membership.item_id
      first_local_membership_purchased_at := some membership.purchased_at
      first_membership_name := membership.name
      first_membership_source := membership.source }
  | none => e

/-- Overwrite the five `client_conversion_event_*` fields from the
`first_credit_pack_*` fields (the `USER_CREDIT` update block, shared verbatim
by the Composer and the Expander in the source). -/
def creditFields (e : ConversionEvent) : ConversionEvent :=
  { e with
    client_conversion_event_type := some "USER_CREDIT"
    client_conversion_event_id := e.first_credit_pack_id
    client_conversion_event_local_created_at := e.first_local_credit_pack_purchased_at
    client_conversion_event_name := e.first_credit_pack_name
    client_conversion_event_source := e.first_credit_pack_source }

/-- Overwrite the five `client_conversion_event_*` fields from the
`first_*membership*` fields (the `MEMBERSHIP` update block). -/
def membershipFields (e : ConversionEvent) : ConversionEvent :=
  { e with
    client_conversion_event_type := some "MEMBERSHIP"
    client_conversion_event_id := e.first_user_membership_id
    client_conversion_event_local_created_at := e.first_local_membership_purchased_at
    client_conversion_event_name := e.first_membership_name
    client_conversion_event_source := e.first_membership_source }

/-- The per-user body of the `create_client_conversion_events` loop: build the
base event, copy in the optional earliest credit and membership records, and
when at least one exists mark the user `CLIENT` and designate the conversion
event — credit when both timestamps parse and credit is earlier-or-equal,
membership when both parse and membership is strictly earlier, the sole
existing record when only one exists, and no designation when both exist but
the timestamps do not both parse. -/
def mkEvent (P : Option String → Option Nat)
    (credits memberships : String → Option StoredPurchase)
    (user : User) : ConversionEvent :=
  let uid := user.user_id.getD ""
  let e := addMembership (addCredit (baseEvent user) (credits uid)) (memberships uid)
  match credits uid, memberships uid with
  | some _, some _ =>
    let e := { e with lead_status := "CLIENT" }
    match P e.first_local_credit_pack_purchased_at,
          P e.first_local_membership_purchased_at with
    | some credit_time, some membership_time =>
      if credit_time ≤ membership_time then creditFields e else membershipFields e
    | _, _ => e
  | some _, none => creditFields { e with lead_status := "CLIENT" }
  | none, some _ => membershipFields { e with lead_status := "CLIENT" }
  | none, none => e

/-- `create_client_conversion_events` from `src/main.py`: per roster user with
a truthy `user_id`, append the composed conversion event. -/
def create_client_conversion_events (P : Option String → Option Nat)
    (users : List User)
    (credits memberships : String → Option StoredPurchase) :
    List ConversionEvent :=
  users.foldl
    (fun results user =>
      if falsyS user.user_id then results
      else results ++ [mkEvent P credits memberships user]) []

/-- A lead-conversion report row: a full copy of a conversion event plus the
added `client_conversion_event_filter` tag. -/
structure LeadConversionRecord extends ConversionEvent where
  client_conversion_event_filter : String
deriving DecidableEq, Repr

/-- The `MEMBERSHIP`-filtered record of `create_lead_conversions`. -/
def membershipRecord (event : ConversionEvent) : LeadConversionRecord :=
  { toConversionEvent := membershipFields event
    client_conversion_event_filter := "MEMBERSHIP" }

/-- The `USER_CREDIT`-filtered record of `create_lead_conversions`. -/
def creditRecord (event : ConversionEvent) : LeadConversionRecord :=
  { toConversionEvent := creditFields event
    client_conversion_event_filter := "USER_CREDIT" }

/-- The `ALL`-filtered record mirroring the membership purchase. -/
def allMembershipRecord (event : ConversionEvent) : LeadConversionRecord :=
  { toConversionEvent := membershipFields event
    client_conversion_event_filter := "ALL" }

/-- The `ALL`-filtered record mirroring the credit purchase. -/
def allCreditRecord (event : ConversionEvent) : LeadConversionRecord :=
  { toConversionEvent := creditFields event
    client_conversion_event_filter := "ALL" }

/-- The per-event body of the `create_lead_conversions` loop: non-`CLIENT`
events and `CLIENT` events with neither first-purchase id yield nothing;
otherwise emit the `MEMBERSHIP` record when a membership id is present, then
the `USER_CREDIT` record when a credit id is present, then the `ALL` record
for whichever purchase is designated first — requiring, when both ids are
present, that both timestamps parse. -/
def expandEvent (P : Option String → Option Nat)
    (event : ConversionEvent) : List LeadConversionRecord :=
  if event.lead_status ≠ "CLIENT" then []
  else
    let has_membership := event.first_user_membership_id.isSome
    let has_credit := event.first_credit_pack_id.isSome
    if !has_membership && !has_credit then []
    else
      let membership_dt := P event.first_local_membership_purchased_at
      let credit_dt := P event.first_local_credit_pack_purchased_at
      let all_event_type : Option String :=
        if has_membership && has_credit then
          match credit_dt, membership_dt with
          | some c, some m =>
            if c ≤ m then some "USER_CREDIT" else some "MEMBERSHIP"
          | _, _ => none
        else if has_membership then some "MEMBERSHIP"
        else some "USER_CREDIT"
      (if has_membership then [membershipRecord event] else []) ++
      (if has_credit then [creditRecord event] else []) ++
      (if all_event_type = some "MEMBERSHIP" then [allMembershipRecord event]
       else if all_event_type = some "USER_CREDIT" then [allCreditRecord event]
       else [])

/-- `create_lead_conversions` from `src/main.py`: concatenate the fan-out of
every conversion event, in input order. -/
def create_lead_conversions (P : Option String → Option Nat)
    (events : List ConversionEvent) : List LeadConversionRecord :=
  events.foldl (fun records event => records ++ expandEvent P event) []

/-- The full-pipeline portion of `main` after the input files are read:
compose the conversion events, expand them, and when the expansion is empty
re-run only the Expander on the pre-built fallback table (the Fallback Loader
returns `[]` for a missing or unreadable file).  The conversion-events output
is always written; the lead-conversions output is written only when
non-empty. -/
structure PipelineOutput where
  client_events_out : List ConversionEvent
  lead_conversions_out : Option (List LeadConversionRecord)
deriving DecidableEq, Repr

/-- State transitions of `main`'s full-pipeline run, lines 479-539 of
`src/main.py`, with file I/O modelled functionally. -/
def runPipeline (P : Option String → Option Nat)
    (users : List User)
    (credit_data membership_data : List PurchaseRow)
    (fallback_events : List ConversionEvent) : PipelineOutput :=
  let credits := process_credit_packs P credit_data
  let memberships := process_memberships P membership_data
  let client_events := create_client_conversion_events P users credits memberships
  let lead_conversions := create_lead_conversions P client_events
  let lead_conversions2 :=
    if lead_conversions ≠ [] then lead_conversions
    else if fallback_events ≠ [] then create_lead_conversions P fallback_events
    else []
  { client_events_out := client_events
    lead_conversions_out :=
      if lead_conversions2 ≠ [] then some lead_conversions2 else none }

/-!  Specification-side selector, for the refinement claim C6.  -/

/-- The earlier of two optional candidate rows, preferring the first argument
on equal timestamps (and when a timestamp fails to parse). -/
def selCombine (P : Option String → Option Nat) :
    Option PurchaseRow → Option PurchaseRow → Option PurchaseRow
  | b, none => b
  | none, some m => some m
  | some b0, some m0 =>
    match P b0.purchased_at, P m0.purchased_at with
    | some tb, some tm => if tb ≤ tm then some b0 else some m0
    | _, _ => some b0

/-- Written to the spec's words (section 4.1): the event of the list with the
chronologically earliest timestamp, the first-seen one on exact ties. -/
def spec_select_earliest (P : Option String → Option Nat) :
    List PurchaseRow → Option PurchaseRow
  | [] => none
  | r :: rest => selCombine P (some r) (spec_select_earliest P rest)

/-- A well-formed purchase row of user `u` in the sense of claim C6: truthy
ids and a parsable, non-falsy timestamp. -/
def GoodRow (P : Option String → Option Nat) (u : String) (r : PurchaseRow) :
    Prop :=
  r.user_id = some u ∧ falsyS r.item_id = false ∧
    falsyS r.purchased_at = false ∧ (P r.purchased_at).isSome = true

theorem enrich_pa (r : PurchaseRow) (h : falsyS r.purchased_at = false) :
    some (enrich r).purchased_at = r.purchased_at := by
  cases hp : r.purchased_at with
  | none => simp [falsyS, hp] at h
  | some s =>
    simp only [falsyS, hp] at h
    simp [enrich, hp, h]

/-- The update performed by one good-row iteration of the selector fold, at
the level of raw rows: keep the incoming row only when its timestamp is
strictly earlier than the retained one's. -/
def stepMin (P : Option String → Option Nat)
    (b : Option PurchaseRow) (r : PurchaseRow) : Option PurchaseRow :=
  match b with
  | none => some r
  | some b0 =>
    match P r.purchased_at, P b0.purchased_at with
    | some tr, some tb => if tr < tb then some r else some b0
    | _, _ => some b0

theorem selCombine_none_right (P : Option String → Option Nat)
    (b : Option PurchaseRow) : selCombine P b none = b := by
  cases b <;> rfl

theorem selCombine_some_some (P : Option String → Option Nat)
    (b0 m0 : PurchaseRow) (tb tm : Nat)
    (htb : P b0.purchased_at = some tb) (htm : P m0.purchased_at = some tm) :
    selCombine P (some b0) (some m0) = if tb ≤ tm then some b0 else some m0 := by
  simp [selCombine, htb, htm]

theorem stepMin_some (P : Option String → Option Nat)
    (b0 r : PurchaseRow) (tr tb : Nat)
    (htr : P r.purchased_at = some tr) (htb : P b0.purchased_at = some tb) :
    stepMin P (some b0) r = if tr < tb then some r else some b0 := by
  simp [stepMin, htr, htb]

theorem selCombine_step (P : Option String → Option Nat)
    (r : PurchaseRow) (b c : Option PurchaseRow)
    (hr : ∃ t, P r.purchased_at = some t)
    (hb : ∀ b0, b = some b0 → ∃ t, P b0.purchased_at = some t)
    (hc : ∀ m0, c = some m0 → ∃ t, P m0.purchased_at = some t) :
    selCombine P (stepMin P b r) c = selCombine P b (selCombine P (some r) c) := by
  obtain ⟨tr, htr⟩ := hr
  cases b with
  | none =>
    cases c with
    | none => rfl
    | some m0 =>
      obtain ⟨tm, htm⟩ := hc m0 rfl
      rw [show stepMin P none r = some r from rfl,
        selCombine_some_some P r m0 tr tm htr htm]
      split <;> rfl
  | some b0 =>
    obtain ⟨tb, htb⟩ := hb b0 rfl
    rw [stepMin_some P b0 r tr tb htr htb]
    cases c with
    | none =>
      rw [selCombine_none_right, selCombine_none_right,
        selCombine_some_some P b0 r tb tr htb htr]
      rcases Nat.lt_or_ge tr tb with h1 | h1
      · rw [if_pos h1, if_neg (by omega)]
      · rw [if_neg (by omega), if_pos (by omega)]
    | some m0 =>
      obtain ⟨tm, htm⟩ := hc m0 rfl
      rw [selCombine_some_some P r m0 tr tm htr htm]
      rcases Nat.lt_or_ge tr tb with h1 | h1 <;>
        rcases le_or_lt tr tm with h2 | h2
      · rw [if_pos h1, if_pos h2,
          selCombine_some_some P r m0 tr tm htr htm,
          selCombine_some_some P b0 r tb tr htb htr,
          if_pos h2, if_neg (by omega)]
      · rw [if_pos h1, if_neg (by omega),
          selCombine_some_some P r m0 tr tm htr htm,
          selCombine_some_some P b0 m0 tb tm htb htm,
          if_neg (by omega), if_neg (by omega)]
      · rw [if_neg (by omega), if_pos h2,
          selCombine_some_some P b0 m0 tb tm htb htm,
          selCombine_some_some P b0 r tb tr htb htr,
          if_pos (by omega), if_pos (by omega)]
      · rw [if_neg (by omega), if_neg (by omega),
          selCombine_some_some P b0 m0 tb tm htb htm]

theorem spec_select_cons (P : Option String → Option Nat)
    (r : PurchaseRow) (rest : List PurchaseRow) :
    spec_select_earliest P (r :: rest)
      = selCombine P (some r) (spec_select_earliest P rest) := rfl


theorem spec_select_nil (P : Option String → Option Nat) :
    spec_select_earliest P [] = none := rfl

theorem selCombine_some_cases (P : Option String → Option Nat)
    (a c : PurchaseRow) :
    selCombine P (some a) (some c) = some a ∨
      selCombine P (some a) (some c) = some c := by
  rcases h1 : P a.purchased_at with _ | ta
  · left; simp [selCombine, h1]
  · rcases h2 : P c.purchased_at with _ | tc
    · left; simp [selCombine, h1, h2]
    · rw [selCombine_some_some P a c ta tc h1 h2]
      by_cases h : ta ≤ tc
      · left; rw [if_pos h]
      · right; rw [if_neg h]

theorem spec_select_cons_isSome (P : Option String → Option Nat)
    (r : PurchaseRow) (rest : List PurchaseRow) :
    (spec_select_earliest P (r :: rest)).isSome := by
  rw [spec_select_cons]
  cases h : spec_select_earliest P rest with
  | none => rw [selCombine_none_right]; rfl
  | some m0 =>
    rcases selCombine_some_cases P r m0 with hc | hc <;> rw [hc] <;> rfl

theorem spec_select_mem (P : Option String → Option Nat) :
    ∀ (data : List PurchaseRow) (m : PurchaseRow),
      spec_select_earliest P data = some m → m ∈ data := by
  intro data
  induction data with
  | nil => intro m h; simp [spec_select_nil] at h
  | cons r rest ih =>
    intro m h
    rw [spec_select_cons] at h
    cases hrest : spec_select_earliest P rest with
    | none =>
      rw [hrest, selCombine_none_right] at h
      have hrm : r = m := Option.some.inj h
      rw [← hrm]
      exact List.mem_cons_self r rest
    | some m0 =>
      rw [hrest] at h
      rcases selCombine_some_cases P r m0 with hcase | hcase <;> rw [hcase] at h
      · have hrm : r = m := Option.some.inj h
        rw [← hrm]
        exact List.mem_cons_self r rest
      · have hrm : m0 = m := Option.some.inj h
        rw [← hrm]
        exact List.mem_cons_of_mem r (ih m0 hrest)

theorem spec_select_min (P : Option String → Option Nat) :
    ∀ (data : List PurchaseRow),
      (∀ r ∈ data, ∃ t, P r.purchased_at = some t) →
      ∀ m tm, spec_select_earliest P data = some m →
        P m.purchased_at = some tm →
        ∀ x ∈ data, ∀ tx, P x.purchased_at = some tx → tm ≤ tx := by
  intro data
  induction data with
  | nil => intro _ m tm h; simp [spec_select_nil] at h
  | cons r rest ih =>
    intro hpar m tm h hm x hx tx htx
    obtain ⟨tr0, htr0⟩ := hpar r (List.mem_cons_self r rest)
    rw [spec_select_cons] at h
    cases hrest : spec_select_earliest P rest with
    | none =>
      rw [hrest, selCombine_none_right] at h
      have hrm : r = m := Option.some.inj h
      have hempty : rest = [] := by
        cases rest with
        | nil => rfl
        | cons y ys =>
          have hys := spec_select_cons_isSome P y ys
          rw [hrest] at hys
          cases hys
      rw [hempty] at hx
      have hxr : x = r := by simpa using hx
      rw [hxr, hrm] at htx
      rw [hm] at htx
      exact le_of_eq (Option.some.inj htx)
    | some m0 =>
      rw [hrest] at h
      obtain ⟨tm0, htm0⟩ :=
        hpar m0 (List.mem_cons_of_mem r (spec_select_mem P rest m0 hrest))
      have hrestpar : ∀ r0 ∈ rest, ∃ t, P r0.purchased_at = some t :=
        fun r0 h0 => hpar r0 (List.mem_cons_of_mem r h0)
      rw [selCombine_some_some P r m0 tr0 tm0 htr0 htm0] at h
      by_cases hle : tr0 ≤ tm0
      · rw [if_pos hle] at h
        have hrm : r = m := Option.some.inj h
        have hmtm : tm = tr0 := by
          rw [← hrm] at hm
          rw [hm] at htr0
          exact Option.some.inj htr0
        rcases List.mem_cons.mp hx with hxr | hx2
        · rw [hxr] at htx
          rw [htr0] at htx
          have := Option.some.inj htx
          omega
        · have hmin0 := ih hrestpar m0 tm0 hrest htm0 x hx2 tx htx
          omega
      · rw [if_neg hle] at h
        have hrm : m0 = m := Option.some.inj h
        have hmtm : tm = tm0 := by
          rw [← hrm] at hm
          rw [hm] at htm0
          exact Option.some.inj htm0
        rcases List.mem_cons.mp hx with hxr | hx2
        · rw [hxr] at htx
          rw [htr0] at htx
          have := Option.some.inj htx
          omega
        · have hmin0 := ih hrestpar m0 tm0 hrest htm0 x hx2 tx htx
          omega

theorem processStep_app (P : Option String → Option Nat)
    (state : String → Option StoredPurchase) (row : PurchaseRow) (u : String)
    (hid : row.user_id = some u) (hu : u ≠ "")
    (hitem : falsyS row.item_id = false) :
    (processStep P state row) u =
      (if (state u).isNone || ltOpt (P (some (enrich row).purchased_at))
          (match state u with
           | some r0 => P (some r0.purchased_at)
           | none => P (some "9999-12-31")) then some (enrich row)
       else state u) := by
  have hguard : (falsyS row.user_id || falsyS row.item_id) = false := by
    rw [hid, hitem]
    simp [falsyS, hu]
  unfold processStep
  rw [hguard]
  rw [if_neg (by simp)]
  simp only [hid, Option.getD_some]
  split
  · simp
  · rfl

theorem fold_sel (P : Option String → Option Nat) (u : String) (hu : u ≠ "") :
    ∀ (data : List PurchaseRow), (∀ r ∈ data, GoodRow P u r) →
    ∀ (state : String → Option StoredPurchase) (b : Option PurchaseRow),
      state u = b.map enrich → (∀ r0, b = some r0 → GoodRow P u r0) →
      (data.foldl (processStep P) state) u
        = (selCombine P b (spec_select_earliest P data)).map enrich := by
  intro data
  induction data with
  | nil =>
    intro _ state b hsb _
    rw [List.foldl_nil, hsb, spec_select_nil, selCombine_none_right]
  | cons r rest ih =>
    intro hdata state b hsb hb
    have hrest : ∀ r0 ∈ rest, GoodRow P u r0 :=
      fun r0 h0 => hdata r0 (List.mem_cons_of_mem r h0)
    obtain ⟨hrid, hritem, hrpa, hrsome⟩ := hdata r (List.mem_cons_self r rest)
    obtain ⟨tr, htr⟩ := Option.isSome_iff_exists.mp hrsome
    have hrP : P (some (enrich r).purchased_at) = some tr := by
      rw [enrich_pa r hrpa]; exact htr
    have hbpar : ∀ b0, b = some b0 → ∃ t, P b0.purchased_at = some t := by
      intro b0 h0
      obtain ⟨_, _, _, hsome⟩ := hb b0 h0
      exact Option.isSome_iff_exists.mp hsome
    have hb' : ∀ r0, stepMin P b r = some r0 → GoodRow P u r0 := by
      intro r0 h0
      cases b with
      | none =>
        cases h0
        exact ⟨hrid, hritem, hrpa, hrsome⟩
      | some b0 =>
        obtain ⟨tb, htb⟩ := hbpar b0 rfl
        rw [stepMin_some P b0 r tr tb htr htb] at h0
        split at h0 <;> cases h0
        · exact ⟨hrid, hritem, hrpa, hrsome⟩
        · exact hb _ rfl
    have hstate' : (processStep P state r) u = (stepMin P b r).map enrich := by
      rw [processStep_app P state r u hrid hu hritem]
      cases b with
      | none =>
        have hsbn : state u = none := by simpa using hsb
        simp [hsbn, stepMin]
      | some b0 =>
        obtain ⟨hbid, hbitem, hbpa, hbsome⟩ := hb b0 rfl
        obtain ⟨tb, htb⟩ := Option.isSome_iff_exists.mp hbsome
        have hsbs : state u = some (enrich b0) := by simpa using hsb
        have hbP : P (some (enrich b0).purchased_at) = some tb := by
          rw [enrich_pa b0 hbpa]; exact htb
        rw [stepMin_some P b0 r tr tb htr htb]
        by_cases hlt : tr < tb
        · rw [if_pos hlt]
          simp [hsbs, hrP, hbP, ltOpt, hlt]
        · rw [if_neg hlt]
          simp [hsbs, hrP, hbP, ltOpt, hlt]
    have hcrest : ∀ m0, spec_select_earliest P rest = some m0 →
        ∃ t, P m0.purchased_at = some t := by
      intro m0 h0
      obtain ⟨_, _, _, hsome⟩ := hrest m0 (spec_select_mem P rest m0 h0)
      exact Option.isSome_iff_exists.mp hsome
    rw [List.foldl_cons,
      ih hrest (processStep P state r) (stepMin P b r) hstate' hb',
      spec_select_cons,
      ← selCombine_step P r b (spec_select_earliest P rest) ⟨tr, htr⟩ hbpar hcrest]

/-- Claim C6: for a stream of valid purchase rows of one user whose
timestamps all parse, both `process_credit_packs` and `process_memberships`
retain exactly the spec-side earliest selection — the row whose timestamp is
minimal over the stream, the first-seen one on exact ties (conjunct 3 states
the minimality of the selected row; conjunct 4 states that on an exactly
equal timestamp the already-stored first row is kept, with no replacement). -/
theorem c6_earliest_selection (P : Option String → Option Nat) (u : String)
    (hu : u ≠ "") (data : List PurchaseRow)
    (hdata : ∀ r ∈ data, GoodRow P u r) :
    process_credit_packs P data u = (spec_select_earliest P data).map enrich ∧
    process_memberships P data u = (spec_select_earliest P data).map enrich ∧
    (∀ m, spec_select_earliest P data = some m → m ∈ data ∧
      ∀ tm, P m.purchased_at = some tm →
        ∀ x ∈ data, ∀ tx, P x.purchased_at = some tx → tm ≤ tx) ∧
    (∀ r1 r2 t, GoodRow P u r1 → GoodRow P u r2 →
      P r1.purchased_at = some t → P r2.purchased_at = some t →
      process_credit_packs P [r1, r2] u = some (enrich r1)) := by
  have hmain : ∀ (l : List PurchaseRow), (∀ r ∈ l, GoodRow P u r) →
      (l.foldl (processStep P) (fun _ => none)) u
        = (spec_select_earliest P l).map enrich := by
    intro l hl
    have hfs := fold_sel P u hu l hl (fun _ => none) none rfl
      (fun r0 h0 => by cases h0)
    cases hs : spec_select_earliest P l with
    | none => rw [hs] at hfs; exact hfs
    | some m => rw [hs] at hfs; exact hfs
  refine ⟨hmain data hdata, hmain data hdata, ?_, ?_⟩
  · intro m hm
    have hpar : ∀ r ∈ data, ∃ t, P r.purchased_at = some t := by
      intro r hr
      exact Option.isSome_iff_exists.mp (hdata r hr).2.2.2
    exact ⟨spec_select_mem P data m hm,
      fun tm htm x hx tx htx => spec_select_min P data hpar m tm hm htm x hx tx htx⟩
  · intro r1 r2 t h1 h2 ht1 ht2
    have hdata2 : ∀ r ∈ [r1, r2], GoodRow P u r := by
      intro r hr
      rcases List.mem_cons.mp hr with rfl | hr2
      · exact h1
      · rcases List.mem_singleton.mp hr2 with rfl
        exact h2
    have hspec : spec_select_earliest P [r1, r2] = some r1 := by
      rw [spec_select_cons, spec_select_cons, spec_select_nil,
        selCombine_none_right, selCombine_some_some P r1 r2 t t ht1 ht2,
        if_pos (le_refl t)]
    have := hmain [r1, r2] hdata2
    rw [hspec] at this
    exact this

/-- Concrete stream for the C6 witness: three purchases of user `u1` at
T2, T3, T1 in scrambled order with T1 < T2 < T3. -/
def dataC6 : List PurchaseRow :=
  [{ user_id := some "u1", item_id := some "c1",
     purchased_at := some "2024-01-10T00:00:00", details := none },
   { user_id := some "u1", item_id := some "c2",
     purchased_at := some "2024-02-01T00:00:00", details := none },
   { user_id := some "u1", item_id := some "c3",
     purchased_at := some "2024-01-05T00:00:00", details := none }]

theorem c6_earliest_selection_witness :
    process_credit_packs testParse dataC6 "u1"
        = (spec_select_earliest testParse dataC6).map enrich ∧
      process_memberships testParse dataC6 "u1"
        = (spec_select_earliest testParse dataC6).map enrich ∧
      (spec_select_earliest testParse dataC6).map (fun r => r.item_id)
        = some (some "c3") := by
  have h := c6_earliest_selection testParse "u1" (by decide) dataC6
    (by intro r hr; fin_cases hr <;> exact ⟨rfl, rfl, rfl, rfl⟩)
  exact ⟨h.1, h.2.1, by decide⟩

theorem processStep_app_any (P : Option String → Option Nat)
    (state : String → Option StoredPurchase) (row : PurchaseRow) (v x : String)
    (hid : row.user_id = some v) (hv : v ≠ "")
    (hitem : falsyS row.item_id = false) :
    (processStep P state row) x =
      (if (state v).isNone || ltOpt (P (some (enrich row).purchased_at))
          (match state v with
           | some r0 => P (some r0.purchased_at)
           | none => P (some "9999-12-31")) then
        (if x == v then some (enrich row) else state x)
       else state x) := by
  have hguard : (falsyS row.user_id || falsyS row.item_id) = false := by
    rw [hid, hitem]
    simp [falsyS, hv]
  unfold processStep
  rw [hguard]
  rw [if_neg (by simp)]
  simp only [hid, Option.getD_some]
  split
  · rfl
  · rfl

theorem processStep_outputs (P : Option String → Option Nat)
    (state : String → Option StoredPurchase) (row : PurchaseRow)
    (u : String) (r : StoredPurchase)
    (h : (processStep P state row) u = some r) :
    state u = some r ∨
      (row.user_id = some u ∧ u ≠ "" ∧ falsyS row.item_id = false ∧
        r = enrich row) := by
  by_cases hg : (falsyS row.user_id || falsyS row.item_id) = true
  · left
    unfold processStep at h
    rw [if_pos hg] at h
    exact h
  · simp only [Bool.or_eq_true, not_or, Bool.not_eq_true] at hg
    obtain ⟨hgu, hgi⟩ := hg
    cases hidc : row.user_id with
    | none => simp [falsyS, hidc] at hgu
    | some v =>
      have hv : v ≠ "" := by
        intro hveq
        rw [hidc, hveq] at hgu
        simp [falsyS] at hgu
      rw [processStep_app_any P state row v u hidc hv hgi] at h
      split at h
      · by_cases huv : u = v
        · right
          subst huv
          simp only [beq_self_eq_true, if_true] at h
          exact ⟨rfl, hv, hgi, (Option.some.inj h).symm⟩
        · left
          have hne : (u == v) = false := by
            simp [huv]
          rw [hne] at h
          simp only [Bool.false_eq_true, if_false] at h
          exact h
      · left
        exact h

theorem fold_outputs (P : Option String → Option Nat) :
    ∀ (data : List PurchaseRow) (state : String → Option StoredPurchase)
      (u : String) (r : StoredPurchase),
      (data.foldl (processStep P) state) u = some r →
      state u = some r ∨
        ∃ row ∈ data, row.user_id = some u ∧ u ≠ "" ∧
          falsyS row.item_id = false ∧ r = enrich row := by
  intro data
  induction data with
  | nil => intro state u r h; exact Or.inl h
  | cons row rest ih =>
    intro state u r h
    rw [List.foldl_cons] at h
    rcases ih (processStep P state row) u r h with hst | hrow
    · rcases processStep_outputs P state row u r hst with h1 | h2
      · exact Or.inl h1
      · exact Or.inr ⟨row, List.mem_cons_self row rest, h2⟩
    · obtain ⟨row2, hmem, hrest⟩ := hrow
      exact Or.inr ⟨row2, List.mem_cons_of_mem row hmem, hrest⟩

theorem fold_skip (P : Option String → Option Nat) :
    ∀ (data : List PurchaseRow) (state : String → Option StoredPurchase),
      (∀ row ∈ data, (falsyS row.user_id || falsyS row.item_id) = true) →
      data.foldl (processStep P) state = state := by
  intro data
  induction data with
  | nil => intro state _; rfl
  | cons row rest ih =>
    intro state hall
    rw [List.foldl_cons]
    have hstep : processStep P state row = state := by
      unfold processStep
      rw [if_pos (hall row (List.mem_cons_self row rest))]
    rw [hstep]
    exact ih state (fun r0 h0 => hall r0 (List.mem_cons_of_mem row h0))

/-- Claim C8: the Earliest-Event Selector silently drops events with a falsy
`user_id` or falsy item id: every stored entry of either selector originates
from a row with a non-empty user id and item id (conjunct 1 and 2), and a
stream containing only such invalid events produces an empty mapping
(conjunct 3).  The fold is total, so no error is raised. -/
theorem c8_invalid_rows_dropped (P : Option String → Option Nat)
    (data : List PurchaseRow) :
    (∀ u r, process_credit_packs P data u = some r →
      ∃ row ∈ data, row.user_id = some u ∧ u ≠ "" ∧
        falsyS row.item_id = false ∧ r = enrich row) ∧
    (∀ u r, process_memberships P data u = some r →
      ∃ row ∈ data, row.user_id = some u ∧ u ≠ "" ∧
        falsyS row.item_id = false ∧ r = enrich row) ∧
    ((∀ row ∈ data, falsyS row.user_id = true ∨ falsyS row.item_id = true) →
      ∀ u, process_credit_packs P data u = none ∧
        process_memberships P data u = none) := by
  have hout : ∀ u r, (data.foldl (processStep P) (fun _ => none)) u = some r →
      ∃ row ∈ data, row.user_id = some u ∧ u ≠ "" ∧
        falsyS row.item_id = false ∧ r = enrich row := by
    intro u r h
    rcases fold_outputs P data (fun _ => none) u r h with hst | hrow
    · cases hst
    · exact hrow
  have hskip : (∀ row ∈ data, falsyS row.user_id = true ∨
      falsyS row.item_id = true) →
      ∀ u, (data.foldl (processStep P) (fun _ => none)) u = none := by
    intro hall u
    rw [fold_skip P data (fun _ => none)
      (fun row h0 => by rcases hall row h0 with h1 | h1 <;> simp [h1])]
  exact ⟨hout, hout, fun hall u => ⟨hskip hall u, hskip hall u⟩⟩

/-- Invalid rows for the C8 witness: one with an empty `user_id`, one with a
missing item id. -/
def dataC8 : List PurchaseRow :=
  [{ user_id := some "", item_id := some "c1",
     purchased_at := some "2024-01-05T00:00:00", details := none },
   { user_id := some "u1", item_id := none,
     purchased_at := some "2024-01-10T00:00:00", details := none }]

theorem c8_invalid_rows_dropped_witness :
    process_credit_packs testParse dataC8 "u1" = none ∧
    process_memberships testParse dataC8 "u1" = none := by
  exact (c8_invalid_rows_dropped testParse dataC8).2.2 (by decide) "u1"

theorem enrich_pa_falsy (r : PurchaseRow) (h : falsyS r.purchased_at = true) :
    (enrich r).purchased_at = sentinelStr := by
  cases hp : r.purchased_at with
  | none => simp [enrich, hp]
  | some s =>
    simp only [falsyS, hp] at h
    simp [enrich, hp, h]

theorem process_single (P : Option String → Option Nat) (u : String)
    (row : PurchaseRow) (hid : row.user_id = some u) (hu : u ≠ "")
    (hitem : falsyS row.item_id = false) :
    process_credit_packs P [row] u = some (enrich row) := by
  show (processStep P (fun _ => none) row) u = some (enrich row)
  rw [processStep_app P (fun _ => none) row u hid hu hitem]
  simp

theorem process_pair (P : Option String → Option Nat) (u : String)
    (row1 row2 : PurchaseRow)
    (hid1 : row1.user_id = some u) (hitem1 : falsyS row1.item_id = false)
    (hid2 : row2.user_id = some u) (hitem2 : falsyS row2.item_id = false)
    (hu : u ≠ "") :
    process_credit_packs P [row1, row2] u =
      (if ltOpt (P (some (enrich row2).purchased_at))
          (P (some (enrich row1).purchased_at)) then some (enrich row2)
       else some (enrich row1)) := by
  show (processStep P (processStep P (fun _ => none) row1) row2) u = _
  have h1 : (processStep P (fun _ => none) row1) u = some (enrich row1) := by
    rw [processStep_app P (fun _ => none) row1 u hid1 hu hitem1]
    simp
  rw [processStep_app P (processStep P (fun _ => none) row1) row2 u hid2 hu
    hitem2, h1]
  simp only [Option.isNone_some, Bool.false_or]

theorem ltOpt_none_right (x : Option Nat) : ltOpt x none = false := by
  cases x <;> rfl

theorem ltOpt_none_left (y : Option Nat) : ltOpt none y = false := by
  cases y <;> rfl

/-- Claim C7 (amended): an event with a MISSING (falsy) `purchased_at` is
stored under the sentinel date `9999-12-31T00:00:00Z`, is kept when it is the
sole event for the user, and loses to an event with an earlier real parsable
timestamp in either arrival order; an event with a non-empty UNPARSABLE
`purchased_at` is kept when sole, never replaces an existing entry, and —
unlike the sentinel — once stored is never replaced, even by a later event
with a real parsable timestamp.  `process_memberships` is the same function. -/
theorem c7_unparsable_sentinel (P : Option String → Option Nat)
    (hP : ParseOK P) (u : String) (hu : u ≠ "")
    (rMiss rGood rAny : PurchaseRow) (t : Nat)
    (hmid : rMiss.user_id = some u) (hmitem : falsyS rMiss.item_id = false)
    (hmmiss : falsyS rMiss.purchased_at = true)
    (hgid : rGood.user_id = some u) (hgitem : falsyS rGood.item_id = false)
    (hgpa : falsyS rGood.purchased_at = false)
    (hgt : P rGood.purchased_at = some t) (htlt : t < sentN)
    (haid : rAny.user_id = some u) (haitem : falsyS rAny.item_id = false) :
    process_credit_packs P [rMiss] u = some (enrich rMiss) ∧
    (enrich rMiss).purchased_at = sentinelStr ∧
    process_credit_packs P [rGood, rMiss] u = some (enrich rGood) ∧
    process_credit_packs P [rMiss, rGood] u = some (enrich rGood) ∧
    (∀ rBad, rBad.user_id = some u → falsyS rBad.item_id = false →
      falsyS rBad.purchased_at = false → P rBad.purchased_at = none →
      process_credit_packs P [rBad] u = some (enrich rBad) ∧
      process_credit_packs P [rBad, rAny] u = some (enrich rBad) ∧
      process_credit_packs P [rGood, rBad] u = some (enrich rGood)) ∧
    process_memberships P = process_credit_packs P := by
  have hsent : P (some (enrich rMiss).purchased_at) = some sentN := by
    rw [enrich_pa_falsy rMiss hmmiss]
    exact hP.sent_eq
  have hgoodP : P (some (enrich rGood).purchased_at) = some t := by
    rw [enrich_pa rGood hgpa]; exact hgt
  refine ⟨process_single P u rMiss hmid hu hmitem,
    enrich_pa_falsy rMiss hmmiss, ?_, ?_, ?_, rfl⟩
  · rw [process_pair P u rGood rMiss hgid hgitem hmid hmitem hu, hsent, hgoodP]
    have hnlt : ¬ (sentN < t) := by omega
    simp [ltOpt, hnlt]
  · rw [process_pair P u rMiss rGood hmid hmitem hgid hgitem hu, hsent, hgoodP]
    simp [ltOpt, htlt]
  · intro rBad hbid hbitem hbpa hbP
    have hbadP : P (some (enrich rBad).purchased_at) = none := by
      rw [enrich_pa rBad hbpa]; exact hbP
    refine ⟨process_single P u rBad hbid hu hbitem, ?_, ?_⟩
    · rw [process_pair P u rBad rAny hbid hbitem haid haitem hu, hbadP,
        ltOpt_none_right]
      simp
    · rw [process_pair P u rGood rBad hgid hgitem hbid hbitem hu, hbadP,
        ltOpt_none_left]
      simp

/-- A purchase row of user `u1` with a non-empty unparsable timestamp. -/
def rowBadC7 : PurchaseRow :=
  { user_id := some "u1", item_id := some "c1",
    purchased_at := some "not-a-date", details := none }

/-- A purchase row of user `u1` with a real parsable timestamp. -/
def rowGoodC7 : PurchaseRow :=
  { user_id := some "u1", item_id := some "c2",
    purchased_at := some "2024-01-05T00:00:00", details := none }

/-- A purchase row of user `u1` with a missing timestamp. -/
def rowMissC7 : PurchaseRow :=
  { user_id := some "u1", item_id := some "c3",
    purchased_at := none, details := none }

/-- Counterexample to claim C7 as stated: the first-seen event has an
unparsable (non-empty) `purchased_at` and a later event of the same user has
a real parsable timestamp, yet the unparsable event is the one retained —
it is NOT treated as a maximum-timestamp sentinel. -/
theorem c7_counterexample :
    testParse rowBadC7.purchased_at = none ∧
    testParse rowGoodC7.purchased_at = some 20240105000000 ∧
    process_credit_packs testParse [rowBadC7, rowGoodC7] "u1"
      = some (enrich rowBadC7) ∧
    enrich rowBadC7 ≠ enrich rowGoodC7 := by
  refine ⟨rfl, rfl, by decide, by decide⟩

theorem c7_unparsable_sentinel_witness :
    process_credit_packs testParse [rowMissC7] "u1" = some (enrich rowMissC7) ∧
    (enrich rowMissC7).purchased_at = sentinelStr ∧
    process_credit_packs testParse [rowGoodC7, rowMissC7] "u1"
      = some (enrich rowGoodC7) ∧
    process_credit_packs testParse [rowBadC7, rowGoodC7] "u1"
      = some (enrich rowBadC7) := by
  have h := c7_unparsable_sentinel testParse testParse_ok "u1" (by decide)
    rowMissC7 rowGoodC7 rowGoodC7 20240105000000 rfl rfl rfl rfl rfl rfl rfl
    (by decide) rfl rfl
  exact ⟨h.1, h.2.1, h.2.2.1, (h.2.2.2.2.1 rowBadC7 rfl rfl rfl rfl).2.1⟩

/-- The event of a user having both an earliest credit and an earliest
membership record, before the conversion-event designation. -/
def bothEvent (user : User) (cr mr : StoredPurchase) : ConversionEvent :=
  { addMembership (addCredit (baseEvent user) (some cr)) (some mr) with
    lead_status := "CLIENT" }

theorem mkEvent_eq_none_none (P : Option String → Option Nat)
    (c m : String → Option StoredPurchase) (user : User) (uid : String)
    (huid : user.user_id = some uid)
    (h1 : c uid = none) (h2 : m uid = none) :
    mkEvent P c m user = baseEvent user := by
  have huid2 : user.user_id.getD "" = uid := by rw [huid]; rfl
  unfold mkEvent
  simp only [huid2, h1, h2]
  try rfl

theorem mkEvent_eq_credit_only (P : Option String → Option Nat)
    (c m : String → Option StoredPurchase) (user : User) (uid : String)
    (cr : StoredPurchase) (huid : user.user_id = some uid)
    (h1 : c uid = some cr) (h2 : m uid = none) :
    mkEvent P c m user =
      creditFields
        { addCredit (baseEvent user) (some cr) with lead_status := "CLIENT" } := by
  have huid2 : user.user_id.getD "" = uid := by rw [huid]; rfl
  unfold mkEvent
  simp only [huid2, h1, h2]
  try rfl

theorem mkEvent_eq_membership_only (P : Option String → Option Nat)
    (c m : String → Option StoredPurchase) (user : User) (uid : String)
    (mr : StoredPurchase) (huid : user.user_id = some uid)
    (h1 : c uid = none) (h2 : m uid = some mr) :
    mkEvent P c m user =
      membershipFields
        { addMembership (baseEvent user) (some mr) with
          lead_status := "CLIENT" } := by
  have huid2 : user.user_id.getD "" = uid := by rw [huid]; rfl
  unfold mkEvent
  simp only [huid2, h1, h2]
  try rfl

theorem mkEvent_eq_both (P : Option String → Option Nat)
    (c m : String → Option StoredPurchase) (user : User) (uid : String)
    (cr mr : StoredPurchase) (huid : user.user_id = some uid)
    (h1 : c uid = some cr) (h2 : m uid = some mr) :
    mkEvent P c m user =
      (match P (some cr.purchased_at), P (some mr.purchased_at) with
       | some ct, some mt =>
         if ct ≤ mt then creditFields (bothEvent user cr mr)
         else membershipFields (bothEvent user cr mr)
       | _, _ => bothEvent user cr mr) := by
  have huid2 : user.user_id.getD "" = uid := by rw [huid]; rfl
  unfold mkEvent
  simp only [huid2, h1, h2]
  try rfl

theorem compose_aux (P : Option String → Option Nat)
    (c m : String → Option StoredPurchase) :
    ∀ (users : List User) (acc : List ConversionEvent),
      users.foldl
        (fun results user =>
          if falsyS user.user_id then results
          else results ++ [mkEvent P c m user]) acc
      = acc ++ (users.filter (fun u0 => !falsyS u0.user_id)).map
          (mkEvent P c m) := by
  intro users
  induction users with
  | nil => intro acc; simp
  | cons user rest ih =>
    intro acc
    rw [List.foldl_cons]
    by_cases hf : falsyS user.user_id = true
    · rw [if_pos hf, ih acc, List.filter_cons]
      simp [hf]
    · have hf2 : falsyS user.user_id = false := by
        cases hfv : falsyS user.user_id
        · rfl
        · exact absurd hfv hf
      rw [if_neg hf, ih (acc ++ [mkEvent P c m user]), List.filter_cons]
      simp [hf2]

theorem compose_eq (P : Option String → Option Nat) (users : List User)
    (c m : String → Option StoredPurchase) :
    create_client_conversion_events P users c m
      = (users.filter (fun u0 => !falsyS u0.user_id)).map (mkEvent P c m) := by
  show users.foldl _ [] = _
  rw [compose_aux]
  simp

/-- Claim C1 (amended): the Composer emits exactly one conversion event per
input user with a truthy `user_id`, in input order (it is the mapped image of
the roster filtered to truthy user ids); consequently the output length
equals the number of such users, not the full roster length. -/
theorem c1_compose_per_valid_user (P : Option String → Option Nat)
    (users : List User) (credits memberships : String → Option StoredPurchase) :
    create_client_conversion_events P users credits memberships
      = (users.filter (fun u0 => !falsyS u0.user_id)).map
          (mkEvent P credits memberships) ∧
    (create_client_conversion_events P users credits memberships).length
      = (users.filter (fun u0 => !falsyS u0.user_id)).length := by
  refine ⟨compose_eq P users credits memberships, ?_⟩
  rw [compose_eq P users credits memberships]
  exact List.length_map _ _

/-- A roster row whose `user_id` is the empty string. -/
def userEmptyC1 : User :=
  { user_id := some "", branch_id := none, created_at := none }

/-- Counterexample to claim C1 as stated: a roster of one user (with an empty
`user_id`) yields zero conversion events, so the output length does not equal
the number of input users. -/
theorem c1_counterexample :
    [userEmptyC1].length = 1 ∧
    create_client_conversion_events testParse [userEmptyC1]
      (fun _ => none) (fun _ => none) = [] := by
  exact ⟨rfl, by decide⟩

theorem mkEvent_user_id (P : Option String → Option Nat)
    (c m : String → Option StoredPurchase) (user : User) (uid : String)
    (huid : user.user_id = some uid) :
    (mkEvent P c m user).user_id = uid := by
  rcases hc : c uid with _ | cr <;> rcases hm : m uid with _ | mr
  · rw [mkEvent_eq_none_none P c m user uid huid hc hm]
    simp [baseEvent, huid]
  · rw [mkEvent_eq_membership_only P c m user uid mr huid hc hm]
    simp [membershipFields, addMembership, baseEvent, huid]
  · rw [mkEvent_eq_credit_only P c m user uid cr huid hc hm]
    simp [creditFields, addCredit, baseEvent, huid]
  · rw [mkEvent_eq_both P c m user uid cr mr huid hc hm]
    rcases P (some cr.purchased_at) with _ | ct
    · simp [bothEvent, addCredit, addMembership, baseEvent, huid]
    · rcases P (some mr.purchased_at) with _ | mt
      · simp [bothEvent, addCredit, addMembership, baseEvent, huid]
      · dsimp only
        by_cases hle : ct ≤ mt
        · rw [if_pos hle]
          simp [creditFields, bothEvent, addCredit, addMembership, baseEvent,
            huid]
        · rw [if_neg hle]
          simp [membershipFields, bothEvent, addCredit, addMembership,
            baseEvent, huid]

/-- Claim C4: when a user has both an earliest-credit and an
earliest-membership record and neither stored timestamp parses, the composed
event still has `lead_status = 'CLIENT'` while all five
`client_conversion_event_*` fields stay null; and this event is among the
Composer's output whenever the user is on the roster. -/
theorem c4_both_unparsable_null_fields (P : Option String → Option Nat)
    (credits memberships : String → Option StoredPurchase)
    (user : User) (uid : String) (cr mr : StoredPurchase)
    (users : List User)
    (huid : user.user_id = some uid) (hu : uid ≠ "")
    (hc : credits uid = some cr) (hm : memberships uid = some mr)
    (hct : P (some cr.purchased_at) = none)
    (hmt : P (some mr.purchased_at) = none)
    (hmem : user ∈ users) :
    (mkEvent P credits memberships user).lead_status = "CLIENT" ∧
    (mkEvent P credits memberships user).client_conversion_event_type = none ∧
    (mkEvent P credits memberships user).client_conversion_event_id = none ∧
    (mkEvent P credits memberships
      user).client_conversion_event_local_created_at = none ∧
    (mkEvent P credits memberships user).client_conversion_event_name = none ∧
    (mkEvent P credits memberships user).client_conversion_event_source
      = none ∧
    mkEvent P credits memberships user
      ∈ create_client_conversion_events P users credits memberships := by
  have hev : mkEvent P credits memberships user = bothEvent user cr mr := by
    rw [mkEvent_eq_both P credits memberships user uid cr mr huid hc hm,
      hct, hmt]
  have hmem2 : mkEvent P credits memberships user
      ∈ create_client_conversion_events P users credits memberships := by
    rw [compose_eq]
    refine List.mem_map_of_mem _ (List.mem_filter.mpr ⟨hmem, ?_⟩)
    rw [huid]
    simp [falsyS, hu]
  exact ⟨by rw [hev]; rfl, by rw [hev]; rfl, by rw [hev]; rfl,
    by rw [hev]; rfl, by rw [hev]; rfl, by rw [hev]; rfl, hmem2⟩

/-- A roster user for concrete composer evaluations. -/
def userU1 : User :=
  { user_id := some "u1", branch_id := some "b1",
    created_at := some "2024-01-01T00:00:00" }

/-- A stored earliest-credit record of `u1` with an unparsable timestamp. -/
def crBadU1 : StoredPurchase :=
  { user_id := some "u1", item_id := some "c1",
    purchased_at := "not-a-date", name := none, source := none }

/-- A stored earliest-membership record of `u1` with an unparsable
timestamp. -/
def mrBadU1 : StoredPurchase :=
  { user_id := some "u1", item_id := some "m1",
    purchased_at := "also-not-a-date", name := none, source := none }

/-- The earliest-credit mapping holding only `crBadU1`. -/
def creditsBadU1 : String → Option StoredPurchase :=
  fun u => if u == "u1" then some crBadU1 else none

/-- The earliest-membership mapping holding only `mrBadU1`. -/
def membershipsBadU1 : String → Option StoredPurchase :=
  fun u => if u == "u1" then some mrBadU1 else none

theorem c4_both_unparsable_null_fields_witness :
    (mkEvent testParse creditsBadU1 membershipsBadU1 userU1).lead_status
      = "CLIENT" ∧
    (mkEvent testParse creditsBadU1 membershipsBadU1
      userU1).client_conversion_event_type = none ∧
    mkEvent testParse creditsBadU1 membershipsBadU1 userU1
      ∈ create_client_conversion_events testParse [userU1] creditsBadU1
          membershipsBadU1 := by
  have h := c4_both_unparsable_null_fields testParse creditsBadU1
    membershipsBadU1 userU1 "u1" crBadU1 mrBadU1 [userU1] rfl (by decide)
    (by decide) (by decide) rfl rfl (by decide)
  exact ⟨h.1, h.2.1, h.2.2.2.2.2.2⟩

/-- Claim C3 (amended): every event the Composer produces has
`lead_status = CLIENT` iff the user has an earliest-credit or an
earliest-membership record, and `lead_status = LEAD` implies a null
`conversion_type`; but the converse fails: `conversion_type` is null iff the
event is a LEAD or both records exist and their stored timestamps do not both
parse. -/
theorem c3_amended (P : Option String → Option Nat) (users : List User)
    (credits memberships : String → Option StoredPurchase) :
    ∀ e ∈ create_client_conversion_events P users credits memberships,
      ((e.lead_status = "CLIENT") ↔
        ((credits e.user_id).isSome = true ∨
          (memberships e.user_id).isSome = true)) ∧
      (e.lead_status = "LEAD" → e.client_conversion_event_type = none) ∧
      ((e.client_conversion_event_type = none) ↔
        (e.lead_status = "LEAD" ∨
          ∃ cr mr, credits e.user_id = some cr ∧
            memberships e.user_id = some mr ∧
            (P (some cr.purchased_at) = none ∨
              P (some mr.purchased_at) = none))) := by
  have hne1 : "LEAD" ≠ "CLIENT" := by decide
  have hne2 : "CLIENT" ≠ "LEAD" := by decide
  intro e he
  rw [compose_eq] at he
  obtain ⟨user, huf, rfl⟩ := List.mem_map.mp he
  obtain ⟨_, hval⟩ := List.mem_filter.mp huf
  have hval2 : falsyS user.user_id = false := by
    cases hfv : falsyS user.user_id
    · rfl
    · rw [hfv] at hval; cases hval
  cases hidc : user.user_id with
  | none => rw [hidc] at hval2; exact absurd hval2 (by simp [falsyS])
  | some uid =>
    have hu : uid ≠ "" := by
      intro hq
      rw [hidc, hq] at hval2
      simp [falsyS] at hval2
    rw [mkEvent_user_id P credits memberships user uid hidc]
    rcases hc : credits uid with _ | cr <;> rcases hm : memberships uid with _ | mr
    · rw [mkEvent_eq_none_none P credits memberships user uid hidc hc hm]
      exact ⟨by simp [baseEvent, hne1], fun _ => rfl, by simp [baseEvent]⟩
    · rw [mkEvent_eq_membership_only P credits memberships user uid mr hidc
        hc hm]
      refine ⟨by simp [membershipFields, addMembership, baseEvent], ?_, ?_⟩
      · intro h
        rw [show (membershipFields
          { addMembership (baseEvent user) (some mr) with
            lead_status := "CLIENT" }).lead_status = "CLIENT" from rfl] at h
        exact absurd h hne2
      · simp [membershipFields, addMembership, baseEvent, hne2]
    · rw [mkEvent_eq_credit_only P credits memberships user uid cr hidc hc hm]
      refine ⟨by simp [creditFields, addCredit, baseEvent], ?_, ?_⟩
      · intro h
        rw [show (creditFields
          { addCredit (baseEvent user) (some cr) with
            lead_status := "CLIENT" }).lead_status = "CLIENT" from rfl] at h
        exact absurd h hne2
      · simp [creditFields, addCredit, baseEvent, hne2]
    · rw [mkEvent_eq_both P credits memberships user uid cr mr hidc hc hm]
      rcases hp1 : P (some cr.purchased_at) with _ | ct
      · refine ⟨by simp [bothEvent, addCredit, addMembership, baseEvent],
          fun h => absurd h hne2, ?_⟩
        constructor
        · intro _
          exact Or.inr ⟨cr, mr, rfl, rfl, Or.inl hp1⟩
        · intro _
          rfl
      · rcases hp2 : P (some mr.purchased_at) with _ | mt
        · refine ⟨by simp [bothEvent, addCredit, addMembership, baseEvent],
            fun h => absurd h hne2, ?_⟩
          constructor
          · intro _
            exact Or.inr ⟨cr, mr, rfl, rfl, Or.inr hp2⟩
          · intro _
            rfl
        · dsimp only
          by_cases hle : ct ≤ mt
          · rw [if_pos hle]
            refine ⟨by simp [creditFields, bothEvent, addCredit,
              addMembership, baseEvent], ?_, ?_⟩
            · intro h
              exact absurd h hne2
            · simp [creditFields, bothEvent, addCredit, addMembership,
                baseEvent, hne2, hp1, hp2]
          · rw [if_neg hle]
            refine ⟨by simp [membershipFields, bothEvent, addCredit,
              addMembership, baseEvent], ?_, ?_⟩
            · intro h
              exact absurd h hne2
            · simp [membershipFields, bothEvent, addCredit, addMembership,
                baseEvent, hne2, hp1, hp2]

/-- Counterexample to claim C3 as stated: with both earliest records present
but both timestamps unparsable, the Composer emits an event whose
`lead_status` is `CLIENT` while `conversion_type` is null — so
"`conversion_type` is null iff `lead_status = LEAD`" fails. -/
theorem c3_counterexample :
    (create_client_conversion_events testParse [userU1] creditsBadU1
        membershipsBadU1).length = 1 ∧
    ∀ e ∈ create_client_conversion_events testParse [userU1] creditsBadU1
        membershipsBadU1,
      e.lead_status = "CLIENT" ∧ e.client_conversion_event_type = none := by
  decide

theorem c3_amended_witness :
    (mkEvent testParse creditsBadU1 membershipsBadU1 userU1).lead_status
      = "CLIENT" := by
  have h := c3_amended testParse [userU1] creditsBadU1 membershipsBadU1
    (mkEvent testParse creditsBadU1 membershipsBadU1 userU1) (by decide)
  exact h.1.mpr (Or.inl (by decide))

theorem expandEvent_not_client (P : Option String → Option Nat)
    (event : ConversionEvent) (h : event.lead_status ≠ "CLIENT") :
    expandEvent P event = [] := by
  unfold expandEvent
  rw [if_pos h]

theorem expandEvent_no_ids (P : Option String → Option Nat)
    (event : ConversionEvent) (hcl : event.lead_status = "CLIENT")
    (hm : event.first_user_membership_id = none)
    (hc : event.first_credit_pack_id = none) :
    expandEvent P event = [] := by
  unfold expandEvent
  rw [if_neg (by rw [hcl]; exact fun hne => hne rfl)]
  simp only [hm, hc, Option.isSome_none]
  rfl

theorem expandEvent_both_parsable (P : Option String → Option Nat)
    (event : ConversionEvent) (ct mt : Nat)
    (hcl : event.lead_status = "CLIENT")
    (hm : event.first_user_membership_id.isSome = true)
    (hc : event.first_credit_pack_id.isSome = true)
    (hpc : P event.first_local_credit_pack_purchased_at = some ct)
    (hpm : P event.first_local_membership_purchased_at = some mt) :
    expandEvent P event =
      [membershipRecord event, creditRecord event,
        if ct ≤ mt then allCreditRecord event
        else allMembershipRecord event] := by
  have hneq : (some "USER_CREDIT" : Option String) ≠ some "MEMBERSHIP" := by
    decide
  unfold expandEvent
  rw [if_neg (by rw [hcl]; exact fun hne => hne rfl)]
  simp only [hm, hc, hpc, hpm, Bool.not_true, Bool.and_self, Bool.false_and,
    Bool.and_false, if_true]
  by_cases hle : ct ≤ mt
  · simp [hle, hneq]
  · simp [hle]

theorem expandEvent_both_unparsable (P : Option String → Option Nat)
    (event : ConversionEvent)
    (hcl : event.lead_status = "CLIENT")
    (hm : event.first_user_membership_id.isSome = true)
    (hc : event.first_credit_pack_id.isSome = true)
    (hbad : P event.first_local_credit_pack_purchased_at = none ∨
      P event.first_local_membership_purchased_at = none) :
    expandEvent P event = [membershipRecord event, creditRecord event] := by
  unfold expandEvent
  rw [if_neg (by rw [hcl]; exact fun hne => hne rfl)]
  rcases hbad with hbad | hbad
  · rcases hpm : P event.first_local_membership_purchased_at with _ | mt <;>
      simp [hm, hc, hbad, hpm]
  · rcases hpc : P event.first_local_credit_pack_purchased_at with _ | ct <;>
      simp [hm, hc, hbad, hpc]

theorem expandEvent_membership_only (P : Option String → Option Nat)
    (event : ConversionEvent)
    (hcl : event.lead_status = "CLIENT")
    (hm : event.first_user_membership_id.isSome = true)
    (hc : event.first_credit_pack_id = none) :
    expandEvent P event = [membershipRecord event, allMembershipRecord event] := by
  unfold expandEvent
  rw [if_neg (by rw [hcl]; exact fun hne => hne rfl)]
  simp [hm, hc]

theorem expandEvent_credit_only (P : Option String → Option Nat)
    (event : ConversionEvent)
    (hcl : event.lead_status = "CLIENT")
    (hm : event.first_user_membership_id = none)
    (hc : event.first_credit_pack_id.isSome = true) :
    expandEvent P event = [creditRecord event, allCreditRecord event] := by
  have hneq : (some "USER_CREDIT" : Option String) ≠ some "MEMBERSHIP" := by
    decide
  unfold expandEvent
  rw [if_neg (by rw [hcl]; exact fun hne => hne rfl)]
  simp [hm, hc, hneq]

theorem lead_conversions_aux (P : Option String → Option Nat) :
    ∀ (events : List ConversionEvent) (acc : List LeadConversionRecord),
      events.foldl (fun records event => records ++ expandEvent P event) acc
        = acc ++ events.flatMap (expandEvent P) := by
  intro events
  induction events with
  | nil => intro acc; simp
  | cons e rest ih =>
    intro acc
    rw [List.foldl_cons, ih (acc ++ expandEvent P e), List.flatMap_cons,
      List.append_assoc]

theorem create_lead_conversions_eq (P : Option String → Option Nat)
    (events : List ConversionEvent) :
    create_lead_conversions P events = events.flatMap (expandEvent P) := by
  show events.foldl _ [] = _
  rw [lead_conversions_aux]
  simp

/-- Claim C2 (amended): the Expander is the per-event fan-out concatenated in
input order, and per CLIENT event: with both purchase ids and BOTH
first-purchase timestamps parsable it emits exactly 3 records filtered
`MEMBERSHIP`, `USER_CREDIT`, `ALL`; with both ids but a timestamp that fails
to parse the `ALL` record is omitted (exactly 2 records); with exactly one
purchase type it emits exactly 2 records filtered by that type and `ALL`; a
LEAD event emits 0 records. -/
theorem c2_fanout_amended (P : Option String → Option Nat)
    (events : List ConversionEvent) (e : ConversionEvent) :
    create_lead_conversions P events = events.flatMap (expandEvent P) ∧
    (e.lead_status = "CLIENT" → e.first_user_membership_id.isSome = true →
      e.first_credit_pack_id.isSome = true →
      ∀ ct mt, P e.first_local_credit_pack_purchased_at = some ct →
        P e.first_local_membership_purchased_at = some mt →
        (expandEvent P e).map (fun r => r.client_conversion_event_filter)
          = ["MEMBERSHIP", "USER_CREDIT", "ALL"]) ∧
    (e.lead_status = "CLIENT" → e.first_user_membership_id.isSome = true →
      e.first_credit_pack_id.isSome = true →
      (P e.first_local_credit_pack_purchased_at = none ∨
        P e.first_local_membership_purchased_at = none) →
      (expandEvent P e).map (fun r => r.client_conversion_event_filter)
        = ["MEMBERSHIP", "USER_CREDIT"]) ∧
    (e.lead_status = "CLIENT" → e.first_user_membership_id.isSome = true →
      e.first_credit_pack_id = none →
      (expandEvent P e).map (fun r => r.client_conversion_event_filter)
        = ["MEMBERSHIP", "ALL"]) ∧
    (e.lead_status = "CLIENT" → e.first_user_membership_id = none →
      e.first_credit_pack_id.isSome = true →
      (expandEvent P e).map (fun r => r.client_conversion_event_filter)
        = ["USER_CREDIT", "ALL"]) ∧
    (e.lead_status = "LEAD" → expandEvent P e = []) := by
  refine ⟨create_lead_conversions_eq P events, ?_, ?_, ?_, ?_, ?_⟩
  · intro hcl hm hc ct mt hpc hpm
    rw [expandEvent_both_parsable P e ct mt hcl hm hc hpc hpm]
    by_cases hle : ct ≤ mt
    · rw [if_pos hle]
      rfl
    · rw [if_neg hle]
      rfl
  · intro hcl hm hc hbad
    rw [expandEvent_both_unparsable P e hcl hm hc hbad]
    rfl
  · intro hcl hm hc
    rw [expandEvent_membership_only P e hcl hm hc]
    rfl
  · intro hcl hm hc
    rw [expandEvent_credit_only P e hcl hm hc]
    rfl
  · intro hl
    exact expandEvent_not_client P e (by rw [hl]; decide)

/-- A CLIENT event with both purchase ids whose membership timestamp is
unparsable. -/
def evC2 : ConversionEvent :=
  { user_id := "u1", branch_id := none, local_user_created_at := none
    lead_status := "CLIENT"
    client_conversion_event_type := none, client_conversion_event_id := none
    client_conversion_event_local_created_at := none
    client_conversion_event_name := none
    client_conversion_event_source := none
    first_user_membership_id := some "m1"
    first_local_membership_purchased_at := some "not-a-date"
    first_membership_name := none, first_membership_source := none
    first_credit_pack_id := some "c1"
    first_local_credit_pack_purchased_at := some "2024-01-05T00:00:00"
    first_credit_pack_name := none, first_credit_pack_source := none }

/-- A CLIENT event with both purchase ids and both timestamps parsable
(credit earlier). -/
def evC2good : ConversionEvent :=
  { evC2 with
    first_local_membership_purchased_at := some "2024-01-10T00:00:00" }

/-- Counterexample to claim C2 as stated: `evC2` is a CLIENT event with both
purchase types, yet the Expander emits only 2 records for it (its membership
timestamp does not parse, so the `ALL` record is skipped), not 3. -/
theorem c2_counterexample :
    evC2.lead_status = "CLIENT" ∧
    evC2.first_user_membership_id.isSome = true ∧
    evC2.first_credit_pack_id.isSome = true ∧
    (create_lead_conversions testParse [evC2]).length = 2 := by
  decide

theorem c2_fanout_amended_witness :
    (expandEvent testParse evC2good).map
        (fun r => r.client_conversion_event_filter)
      = ["MEMBERSHIP", "USER_CREDIT", "ALL"] ∧
    (expandEvent testParse evC2).map
        (fun r => r.client_conversion_event_filter)
      = ["MEMBERSHIP", "USER_CREDIT"] := by
  have h1 := c2_fanout_amended testParse [] evC2good
  have h2 := c2_fanout_amended testParse [] evC2
  exact ⟨h1.2.1 rfl rfl rfl 20240105000000 20240110000000 rfl rfl,
    h2.2.2.1 rfl rfl rfl (Or.inr rfl)⟩

/-- Claim C10: a CLIENT event with both purchase ids but a first-purchase
timestamp that fails to parse expands to exactly the 2 records filtered
`MEMBERSHIP` and `USER_CREDIT` — no `ALL` record; a CLIENT event with both
ids null expands to 0 records. -/
theorem c10_unparsable_no_all (P : Option String → Option Nat)
    (e : ConversionEvent) :
    (e.lead_status = "CLIENT" → e.first_user_membership_id.isSome = true →
      e.first_credit_pack_id.isSome = true →
      (P e.first_local_credit_pack_purchased_at = none ∨
        P e.first_local_membership_purchased_at = none) →
      expandEvent P e = [membershipRecord e, creditRecord e] ∧
      (expandEvent P e).length = 2 ∧
      (∀ r ∈ expandEvent P e, r.client_conversion_event_filter ≠ "ALL") ∧
      (membershipRecord e).client_conversion_event_filter = "MEMBERSHIP" ∧
      (creditRecord e).client_conversion_event_filter = "USER_CREDIT") ∧
    (e.lead_status = "CLIENT" → e.first_user_membership_id = none →
      e.first_credit_pack_id = none → expandEvent P e = []) := by
  constructor
  · intro hcl hm hc hbad
    have hexp := expandEvent_both_unparsable P e hcl hm hc hbad
    refine ⟨hexp, by rw [hexp]; rfl, ?_, rfl, rfl⟩
    rw [hexp]
    intro r hr
    rcases List.mem_cons.mp hr with rfl | hr2
    · intro h
      exact absurd h (show ("MEMBERSHIP" : String) ≠ "ALL" by decide)
    · rcases List.mem_singleton.mp hr2 with rfl
      intro h
      exact absurd h (show ("USER_CREDIT" : String) ≠ "ALL" by decide)
  · intro hcl hm hc
    exact expandEvent_no_ids P e hcl hm hc

theorem c10_unparsable_no_all_witness :
    expandEvent testParse evC2 = [membershipRecord evC2, creditRecord evC2] ∧
    (expandEvent testParse evC2).length = 2 := by
  have h := (c10_unparsable_no_all testParse evC2).1 rfl rfl rfl (Or.inr rfl)
  exact ⟨h.1, h.2.1⟩

/-- Claim C5: on an exact (parsable) timestamp tie between a user's earliest
credit purchase and earliest membership purchase, the Composer designates the
credit purchase (`conversion_type = USER_CREDIT`), and the Expander's
`ALL`-filtered record likewise mirrors the credit purchase: credit wins
non-strict ties in both components. -/
theorem c5_tie_credit (P : Option String → Option Nat)
    (credits memberships : String → Option StoredPurchase) (user : User)
    (uid : String) (cr mr : StoredPurchase) (t : Nat) (e : ConversionEvent)
    (huid : user.user_id = some uid)
    (hc : credits uid = some cr) (hm : memberships uid = some mr)
    (hct : P (some cr.purchased_at) = some t)
    (hmt : P (some mr.purchased_at) = some t) :
    (mkEvent P credits memberships user).client_conversion_event_type
      = some "USER_CREDIT" ∧
    (e.lead_status = "CLIENT" → e.first_user_membership_id.isSome = true →
      e.first_credit_pack_id.isSome = true →
      ∀ t2, P e.first_local_credit_pack_purchased_at = some t2 →
        P e.first_local_membership_purchased_at = some t2 →
        expandEvent P e =
          [membershipRecord e, creditRecord e, allCreditRecord e] ∧
        (allCreditRecord e).client_conversion_event_filter = "ALL" ∧
        (allCreditRecord e).client_conversion_event_type
          = some "USER_CREDIT") := by
  constructor
  · have hev : mkEvent P credits memberships user
        = creditFields (bothEvent user cr mr) := by
      rw [mkEvent_eq_both P credits memberships user uid cr mr huid hc hm,
        hct, hmt]
      dsimp only
      rw [if_pos (le_refl t)]
    rw [hev]
    rfl
  · intro hcl hm2 hc2 t2 hpc hpm
    refine ⟨?_, rfl, rfl⟩
    rw [expandEvent_both_parsable P e t2 t2 hcl hm2 hc2 hpc hpm,
      if_pos (le_refl t2)]

/-- A stored earliest-credit record of `u1` with a parsable timestamp. -/
def crTieU1 : StoredPurchase :=
  { user_id := some "u1", item_id := some "c1",
    purchased_at := "2024-01-05T00:00:00", name := none, source := none }

/-- A stored earliest-membership record of `u1` with the same timestamp. -/
def mrTieU1 : StoredPurchase :=
  { user_id := some "u1", item_id := some "m1",
    purchased_at := "2024-01-05T00:00:00", name := none, source := none }

/-- The earliest-credit mapping holding only `crTieU1`. -/
def creditsTieU1 : String → Option StoredPurchase :=
  fun u => if u == "u1" then some crTieU1 else none

/-- The earliest-membership mapping holding only `mrTieU1`. -/
def membershipsTieU1 : String → Option StoredPurchase :=
  fun u => if u == "u1" then some mrTieU1 else none

/-- A CLIENT event whose credit and membership timestamps tie exactly. -/
def evC5 : ConversionEvent :=
  { evC2 with
    first_local_membership_purchased_at := some "2024-01-05T00:00:00" }

theorem c5_tie_credit_witness :
    (mkEvent testParse creditsTieU1 membershipsTieU1
      userU1).client_conversion_event_type = some "USER_CREDIT" ∧
    expandEvent testParse evC5
      = [membershipRecord evC5, creditRecord evC5, allCreditRecord evC5] := by
  have h := c5_tie_credit testParse creditsTieU1 membershipsTieU1 userU1 "u1"
    crTieU1 mrTieU1 20240105000000 evC5 rfl (by decide) (by decide) rfl rfl
  exact ⟨h.1, (h.2 rfl rfl rfl 20240105000000 rfl rfl).1⟩

/-- Claim C9: in the full pipeline, the conversion-events output is always
the freshly composed table (conjunct 1, written unconditionally); when the
Expander yields zero records on the primary data, only the Expander is re-run
on the pre-built fallback table, and the lead-conversions output is written
iff that re-run is non-empty — an empty or unreadable fallback source (the
loader returns the empty list) yields no lead-conversion output and no
exception, the pipeline being a total function (conjunct 2); a non-empty
primary expansion is written as-is and the fallback is ignored
(conjunct 3). -/
theorem c9_fallback_path (P : Option String → Option Nat)
    (users : List User) (credit_data membership_data : List PurchaseRow)
    (fallback_events : List ConversionEvent) :
    (runPipeline P users credit_data membership_data
        fallback_events).client_events_out
      = create_client_conversion_events P users
          (process_credit_packs P credit_data)
          (process_memberships P membership_data) ∧
    (create_lead_conversions P
        (create_client_conversion_events P users
          (process_credit_packs P credit_data)
          (process_memberships P membership_data)) = [] →
      (runPipeline P users credit_data membership_data
          fallback_events).lead_conversions_out
        = (if create_lead_conversions P fallback_events = [] then none
           else some (create_lead_conversions P fallback_events))) ∧
    (create_lead_conversions P
        (create_client_conversion_events P users
          (process_credit_packs P credit_data)
          (process_memberships P membership_data)) ≠ [] →
      (runPipeline P users credit_data membership_data
          fallback_events).lead_conversions_out
        = some (create_lead_conversions P
            (create_client_conversion_events P users
              (process_credit_packs P credit_data)
              (process_memberships P membership_data)))) := by
  have hnil : create_lead_conversions P ([] : List ConversionEvent) = [] := rfl
  unfold runPipeline
  dsimp only
  refine ⟨rfl, ?_, ?_⟩
  · intro hempty
    by_cases hfb : fallback_events = []
    · subst hfb
      simp [hempty, hnil]
    · by_cases hcf : create_lead_conversions P fallback_events = []
      · simp [hempty, hcf]
      · simp [hempty, hcf, hfb]
  · intro hne
    simp [hne]

theorem c9_fallback_path_witness :
    (runPipeline testParse [] [] [] [evC2good]).lead_conversions_out
      = some (create_lead_conversions testParse [evC2good]) ∧
    (runPipeline testParse [] [] [] []).lead_conversions_out = none ∧
    (runPipeline testParse [] [] [] []).client_events_out = [] := by
  have h1 := c9_fallback_path testParse [] [] [] [evC2good]
  have h2 := c9_fallback_path testParse [] [] [] []
  refine ⟨?_, ?_, ?_⟩
  · rw [h1.2.1 rfl, if_neg (by decide)]
  · rw [h2.2.1 rfl]
    decide
  · rw [h2.1]
    decide
